import Mathlib

/-!
Shallow embedding of the session-authentication-and-feature-lifecycle
orchestrator of `app.py` (Flask market-data streaming application).

The embedded functions mirror, line by line:
  * `authenticate`        (app.py lines 94-147)
  * `_initialize_features` (app.py lines 50-76)
  * `_cleanup_features`    (app.py lines 78-87)
  * `logout`               (app.py lines 149-155)
  * `handle_connect`       (app.py lines 179-195)
  * `handle_disconnect`    (app.py lines 197-199)

External nondeterminism (the upstream client factory `get_schwab_client`,
the handle's `start_streaming` / `stop_streaming` outcomes, and the
registry's initialization outcome) is supplied through explicit oracle
values consumed in program order.  Python exceptions raised by a
collaborator are modelled as explicit `fault` outcomes; the `try/except`
blocks of the source become the corresponding branches here.

`FeatureManager` (`features/feature_manager.py`) is not among the provided
sources; its entry points are modelled from the spec where noted.
-/

namespace App

/-- A client object: either a real Schwab client (identified by an id,
    line 61 / line 117 of app.py) or the `MockSchwabClient` built on
    line 57. -/
inductive ClientObj
  | real (id : Nat)
  | mock
deriving DecidableEq

/-- Outcome of one call to `get_schwab_client()`: a client, `None`,
    or a raised exception. -/
inductive ClientRes
  | ok (id : Nat)
  | noClient
  | fault
deriving DecidableEq

/-- Outcome of one call to `start_streaming()`: a returned boolean, or a
    raised exception. -/
inductive StreamRes
  | ok (success : Bool)
  | fault
deriving DecidableEq

/-- Outcome of one call to `stop_streaming()`: normal return or a raised
    exception. -/
inductive StopRes
  | ok
  | fault
deriving DecidableEq

/-- Flash-notice categories used by app.py (`flash(msg, category)`). -/
inductive Category
  | success
  | warning
  | error
  | info
deriving DecidableEq

/-- Redirect targets of the two routes (`url_for('index')`,
    `url_for('login')`). -/
inductive Page
  | index
  | login
deriving DecidableEq

/-- The Flask session record, restricted to the keys app.py touches.
    `authenticated` and `mock_mode` are dictionary keys that may be absent
    (`none`); `permanent` models `session.permanent` (cleared together
    with the rest by `session.clear()`, which empties the whole cookie
    dict). -/
structure Session where
  authenticated : Option Bool
  mockMode : Option Bool
  permanent : Bool
deriving DecidableEq

/-- The market-data manager handle.  `streamingStarted` models the
    presence of the `_streaming_started` attribute set by
    `handle_connect` (app.py line 190): the attribute is absent at
    creation and only ever set to `True`, so presence is a boolean.
    `clientArg` records which client object the handle was initialized
    with, `isMock` the `use_mock` tag it was created under. -/
structure Manager where
  isMock : Bool
  clientArg : Option ClientObj
  streamingStarted : Bool
deriving DecidableEq

/-- The feature registry (`feature_manager`).  Modelled from the spec:
    `FeatureManager` is not among the provided sources.  Spec §6 gives it
    an enable-check `is_enabled(name) -> bool` and a lookup
    `get(name) -> Handle | absent`; `mdEnabled` is the enable-check
    answer for `'market_data'` and `mdHandle` the stored handle. -/
structure Registry where
  mdEnabled : Bool
  mdHandle : Option Manager
deriving DecidableEq

/-- Oracle for the external collaborators: the successive results of
    `get_schwab_client()` calls and of registry initialization attempts,
    consumed in program order.  An exhausted list defaults, respectively,
    to `noClient` (no upstream client obtainable) and `true`
    (initialization succeeds). -/
structure Oracle where
  clientResults : List ClientRes
  initOk : List Bool
deriving DecidableEq

/-- Consume the next `get_schwab_client()` outcome. -/
def popClient (o : Oracle) : ClientRes × Oracle :=
  match o.clientResults with
  | [] => (ClientRes.noClient, o)
  | r :: rs => (r, { o with clientResults := rs })

/-- Consume the next registry-initialization outcome. -/
def popInit (o : Oracle) : Bool × Oracle :=
  match o.initOk with
  | [] => (true, o)
  | b :: bs => (b, { o with initOk := bs })

/-- Modelled from the spec: `feature_manager.initialize_market_data`
    (called on app.py line 64) lives in `features/feature_manager.py`,
    which is not among the provided sources.  Spec §6:
    `initialize(name, realCollaborator, simulatedCollaborator, useSimulated)
    -> Handle | failure`; spec §3 and §4.3: a successful initialization
    stores a new handle tagged with its mode whose Streaming Guard is
    `false` at creation.  On failure the registry is left unchanged and
    a falsy value is returned (app.py line 68 checks for that). -/
def initializeMarketData (reg : Registry) (client : Option ClientObj)
    (useMock : Bool) (ok : Bool) : Registry × Option Manager :=
  if ok then
    let m : Manager := ⟨useMock, client, false⟩
    ({ reg with mdHandle := some m }, some m)
  else (reg, none)

/-- Observable record of one `_initialize_features` run (plus the
    enclosing `authenticate` body): how many times `get_schwab_client()`
    was invoked, and with which arguments (client object, `use_mock`)
    `initialize_market_data` was invoked, `none` when it was not. -/
structure InitLog where
  getClientCalls : Nat
  initArgs : Option (Option ClientObj × Bool)
deriving DecidableEq

/-- The client object a `get_schwab_client()` outcome hands to the
    caller (`fault` never hands one: the exception propagates first). -/
def toClientObj : ClientRes → Option ClientObj
  | ClientRes.ok i => some (ClientObj.real i)
  | ClientRes.noClient => none
  | ClientRes.fault => none

/-- `_initialize_features(use_mock)` (app.py lines 50-76).  `cfgMD` is
    `Config.ENABLE_MARKET_DATA`, read once at startup.  In mock mode the
    mock components are constructed directly; in real mode
    `get_schwab_client()` is called afresh (line 61) and may return a
    client, `None`, or raise.  The whole body sits in a `try/except`
    that swallows every exception (lines 75-76), so a fault only skips
    the initialization call.  The returned `InitLog` records the
    observable calls. -/
def initializeFeatures (cfgMD : Bool) (reg : Registry) (orc : Oracle)
    (useMock : Bool) : Registry × Oracle × InitLog :=
  if cfgMD then
    if useMock then
      let (ok, orc) := popInit orc
      let (reg, _) := initializeMarketData reg (some ClientObj.mock) true ok
      (reg, orc, ⟨0, some (some ClientObj.mock, true)⟩)
    else
      let (res, orc) := popClient orc
      match res with
      | ClientRes.fault => (reg, orc, ⟨1, none⟩)
      | r =>
        let cl := toClientObj r
        let (ok, orc) := popInit orc
        let (reg, _) := initializeMarketData reg cl false ok
        (reg, orc, ⟨1, some (cl, false)⟩)
  else (reg, orc, ⟨0, none⟩)

/-- Result of one `/authenticate` request: final session, registry and
    oracle, the flashed notices in order, the redirect target, and the
    observable call log. -/
structure AuthResult where
  sess : Session
  reg : Registry
  orc : Oracle
  flashes : List Category
  redirectTo : Page
  log : InitLog
deriving DecidableEq

/-- The `/authenticate` route handler (app.py lines 94-147).
    `mockParam` is `request.args.get('mock','false').lower() == 'true'`;
    `envUseMock` is the value `os.getenv('USE_MOCK_DATA','false')`
    compares equal to `'true'` **at request-handling time** (the getenv
    call sits inside the handler, line 101).  The four paths:
    mock short-circuit (lines 104-114), real client (lines 119-128),
    no-client fallback (lines 129-136), and the `except` fault handler
    (lines 140-147), which notably does not set `session.permanent`. -/
def authenticate (mockParam envUseMock cfgMD : Bool) (s : Session)
    (reg : Registry) (orc : Oracle) : AuthResult :=
  let useMock := mockParam || envUseMock
  if useMock then
    let s := { s with authenticated := some true, mockMode := some true,
                      permanent := true }
    let (reg, orc, log) := initializeFeatures cfgMD reg orc true
    ⟨s, reg, orc, [Category.warning], Page.index, log⟩
  else
    let (res, orc) := popClient orc
    match res with
    | ClientRes.ok _ =>
      let s := { s with authenticated := some true, mockMode := some false,
                        permanent := true }
      let (reg, orc, log) := initializeFeatures cfgMD reg orc false
      ⟨s, reg, orc, [Category.success], Page.index,
        { log with getClientCalls := log.getClientCalls + 1 }⟩
    | ClientRes.noClient =>
      let s := { s with authenticated := some true, mockMode := some true,
                        permanent := true }
      let (reg, orc, log) := initializeFeatures cfgMD reg orc true
      ⟨s, reg, orc, [Category.error], Page.index,
        { log with getClientCalls := log.getClientCalls + 1 }⟩
    | ClientRes.fault =>
      let s := { s with authenticated := some true, mockMode := some true }
      let (reg, orc, log) := initializeFeatures cfgMD reg orc true
      ⟨s, reg, orc, [Category.error], Page.index,
        { log with getClientCalls := log.getClientCalls + 1 }⟩

/-- Result of one socket-connect event: updated registry, the number of
    `start_streaming()` invocations made during the event, and how many
    of them returned success. -/
structure ConnectResult where
  reg : Registry
  calls : Nat
  started : Nat
deriving DecidableEq

/-- The socket.io `connect` handler (app.py lines 179-195).
    `session.get('authenticated')` is truthy only when the key holds
    `True`; the guard check is `not hasattr(manager, '_streaming_started')`
    (line 187); on a successful start the attribute is set (line 190);
    on a returned failure or a raised exception nothing is set and the
    `except` swallows the fault. -/
def handleConnect (s : Session) (reg : Registry) (res : StreamRes) :
    ConnectResult :=
  if s.authenticated.getD false && reg.mdEnabled then
    match reg.mdHandle with
    | some m =>
      if m.streamingStarted then ⟨reg, 0, 0⟩
      else
        match res with
        | StreamRes.ok true =>
          ⟨{ reg with mdHandle := some { m with streamingStarted := true } },
            1, 1⟩
        | StreamRes.ok false => ⟨reg, 1, 0⟩
        | StreamRes.fault => ⟨reg, 1, 0⟩
    | none => ⟨reg, 0, 0⟩
  else ⟨reg, 0, 0⟩

/-- The socket.io `disconnect` handler (app.py lines 197-199): logging
    only, no state mutation. -/
def handleDisconnect (reg : Registry) : Registry := reg

/-- Fold a finite sequence of connect events (each with its
    `start_streaming` outcome) over the registry, accumulating the
    invocation and success counts. -/
def runConnects (s : Session) (reg : Registry) :
    List StreamRes → Registry × Nat × Nat
  | [] => (reg, 0, 0)
  | r :: rs =>
    let c := handleConnect s reg r
    let rest := runConnects s c.reg rs
    (rest.1, c.calls + rest.2.1, c.started + rest.2.2)

/-- `_cleanup_features()` (app.py lines 78-87): when the registry says
    the feature is enabled and a handle exists, `stop_streaming()` is
    invoked once; an exception from it is caught and logged (lines
    86-87), leaving the registry untouched either way.  Returns the
    number of `stop_streaming` invocations. -/
def cleanupFeatures (reg : Registry) (_stopRes : StopRes) : Registry × Nat :=
  if reg.mdEnabled then
    match reg.mdHandle with
    | some _ => (reg, 1)
    | none => (reg, 0)
  else (reg, 0)

/-- Result of one `/logout` request. -/
structure LogoutResult where
  sess : Session
  reg : Registry
  flashes : List Category
  redirectTo : Page
  stopCalls : Nat
deriving DecidableEq

/-- The session after `session.clear()`: every key gone. -/
def emptySession : Session := ⟨none, none, false⟩

/-- The `/logout` route handler (app.py lines 149-155): cleanup, then
    `session.clear()`, one info flash, redirect to the login page. -/
def logout (_s : Session) (reg : Registry) (stopRes : StopRes) :
    LogoutResult :=
  let (regF, stops) := cleanupFeatures reg stopRes
  ⟨emptySession, regF, [Category.info], Page.login, stops⟩

/-! Concrete sample values used by the witness theorems. -/

/-- A handle whose Streaming Guard is unset. -/
def mgrUnset : Manager := ⟨true, some ClientObj.mock, false⟩

/-- A handle whose Streaming Guard is set. -/
def mgrSet : Manager := ⟨true, some ClientObj.mock, true⟩

/-- Registry with the market-data feature enabled and an unset-guard handle. -/
def regUnset : Registry := ⟨true, some mgrUnset⟩

/-- Registry with the market-data feature enabled and a set-guard handle. -/
def regSet : Registry := ⟨true, some mgrSet⟩

/-- An authenticated session. -/
def sessAuth : Session := ⟨some true, some true, true⟩

/-! Helper lemmas about the connect handler, shared by several results. -/

/-- A connect event for a handle whose guard is already set is a no-op:
    no `start_streaming` invocation, registry unchanged. -/
theorem handleConnect_of_guard (s : Session) (reg : Registry) (m : Manager)
    (h : reg.mdHandle = some m) (hg : m.streamingStarted = true)
    (r : StreamRes) : handleConnect s reg r = ⟨reg, 0, 0⟩ := by
  cases hab : s.authenticated.getD false <;>
    cases hen : reg.mdEnabled <;>
      simp [handleConnect, hab, hen, h, hg]

/-- Once the guard is set, an arbitrary sequence of connect events makes
    no `start_streaming` invocation at all and leaves the registry
    unchanged. -/
theorem runConnects_of_guard (s : Session) (reg : Registry) (m : Manager)
    (h : reg.mdHandle = some m) (hg : m.streamingStarted = true)
    (rs : List StreamRes) : runConnects s reg rs = (reg, 0, 0) := by
  induction rs with
  | nil => rfl
  | cons r rs ih =>
    simp [runConnects, handleConnect_of_guard s reg m h hg r, ih]

/-- Exhaustive outcome analysis of one connect event: either no
    successful start happened and the registry is unchanged, or exactly
    one invocation succeeded and the resulting handle's guard is set. -/
theorem handleConnect_cases (s : Session) (reg : Registry) (r : StreamRes) :
    ((handleConnect s reg r).started = 0 ∧ (handleConnect s reg r).reg = reg)
    ∨ ((handleConnect s reg r).started = 1 ∧
        (handleConnect s reg r).calls = 1 ∧
        ∃ m, (handleConnect s reg r).reg.mdHandle = some m ∧
          m.streamingStarted = true) := by
  rcases reg with ⟨en, hd⟩
  rcases r with ⟨b⟩ | _ <;> (try cases b) <;>
    cases hab : s.authenticated.getD false <;> cases en <;>
      rcases hd with _ | ⟨im, ca, st⟩ <;> (try cases st) <;>
        simp [handleConnect, hab]

/-- The per-event success count of a connect sequence never exceeds 1. -/
theorem runConnects_started_le_one (s : Session) (reg : Registry)
    (events : List StreamRes) : (runConnects s reg events).2.2 ≤ 1 := by
  induction events generalizing reg with
  | nil => simp [runConnects]
  | cons r rs ih =>
    rcases handleConnect_cases s reg r with ⟨h0, hreg⟩ | ⟨h1, _, m, hm, hg⟩
    · simpa [runConnects, h0, hreg] using ih reg
    · have hz := runConnects_of_guard s (handleConnect s reg r).reg m hm hg rs
      simp [runConnects, h1, hz]

/-- C1: every execution of `/authenticate` — mock flag set, real client
    obtained, no-client fallback, or caught fault — terminates with
    `session.authenticated = True`, a defined boolean `mock_mode`, and a
    redirect to the landing page as its terminal step. -/
theorem authenticate_total_postcondition
    (mockParam envUseMock cfgMD : Bool) (s : Session) (reg : Registry)
    (orc : Oracle) :
    (authenticate mockParam envUseMock cfgMD s reg orc).sess.authenticated
        = some true ∧
    ((authenticate mockParam envUseMock cfgMD s reg orc).sess.mockMode).isSome
        = true ∧
    (authenticate mockParam envUseMock cfgMD s reg orc).redirectTo
        = Page.index := by
  rcases orc with ⟨crs, inits⟩
  cases mockParam <;> cases envUseMock <;> cases cfgMD <;>
    rcases crs with _ | ⟨r, rs⟩ <;> (try cases r) <;>
      simp [authenticate, initializeFeatures, initializeMarketData,
            popClient, popInit, toClientObj]

/-- C2: across any finite sequence of connect events, `start_streaming`
    succeeds at most once per handle; if the handle's guard is set no
    later connect event invokes `start_streaming` at all; and whenever
    an event's start succeeds, the resulting handle's guard is set (so
    subsequent events cannot re-invoke). -/
theorem streaming_guard_at_most_once (s : Session) (reg : Registry)
    (events : List StreamRes) :
    (runConnects s reg events).2.2 ≤ 1 ∧
    (∀ m, reg.mdHandle = some m → m.streamingStarted = true →
      (runConnects s reg events).2.1 = 0) ∧
    (∀ r, (handleConnect s reg r).started = 1 →
      ∃ m, (handleConnect s reg r).reg.mdHandle = some m ∧
        m.streamingStarted = true) := by
  refine ⟨runConnects_started_le_one s reg events, ?_, ?_⟩
  · intro m hm hg
    simp [runConnects_of_guard s reg m hm hg events]
  · intro r h1
    rcases handleConnect_cases s reg r with ⟨h0, _⟩ | ⟨_, _, m, hm, hg⟩
    · omega
    · exact ⟨m, hm, hg⟩

/-- Witness for C2: with a set guard, two further connect events make no
    invocation; and a successful start on an unset-guard handle leaves a
    set guard behind. -/
theorem streaming_guard_at_most_once_witness :
    (runConnects sessAuth regSet [StreamRes.ok true, StreamRes.ok true]).2.1
      = 0 ∧
    ∃ m, (handleConnect sessAuth regUnset (StreamRes.ok true)).reg.mdHandle
        = some m ∧ m.streamingStarted = true :=
  ⟨(streaming_guard_at_most_once sessAuth regSet
      [StreamRes.ok true, StreamRes.ok true]).2.1 mgrSet rfl rfl,
   (streaming_guard_at_most_once sessAuth regUnset []).2.2
      (StreamRes.ok true) rfl⟩

/-- C8: when `start_streaming` reports failure on a connect event, the
    guard stays unset and the registry is unchanged, the event makes
    exactly one invocation (no in-event retry), and a later connect
    event for the same handle invokes `start_streaming` again. -/
theorem failed_start_leaves_guard_unset (s : Session) (reg : Registry)
    (m : Manager) (r2 : StreamRes)
    (hm : reg.mdHandle = some m) (hg : m.streamingStarted = false)
    (ha : s.authenticated = some true) (he : reg.mdEnabled = true) :
    (handleConnect s reg (StreamRes.ok false)).calls = 1 ∧
    (handleConnect s reg (StreamRes.ok false)).reg = reg ∧
    (handleConnect s (handleConnect s reg (StreamRes.ok false)).reg r2).calls
      = 1 := by
  have h1 : handleConnect s reg (StreamRes.ok false) = ⟨reg, 1, 0⟩ := by
    simp [handleConnect, ha, he, hm, hg]
  refine ⟨by rw [h1], by rw [h1], ?_⟩
  rw [h1]
  rcases r2 with ⟨b⟩ | _ <;> (try cases b) <;>
    simp [handleConnect, ha, he, hm, hg]

/-- Witness for C8 at a concrete unset-guard registry. -/
theorem failed_start_leaves_guard_unset_witness :
    (handleConnect sessAuth regUnset (StreamRes.ok false)).calls = 1 ∧
    (handleConnect sessAuth regUnset (StreamRes.ok false)).reg = regUnset ∧
    (handleConnect sessAuth
        (handleConnect sessAuth regUnset (StreamRes.ok false)).reg
        (StreamRes.ok true)).calls = 1 :=
  failed_start_leaves_guard_unset sessAuth regUnset mgrUnset
    (StreamRes.ok true) rfl rfl rfl rfl

/-- C3: when the simulation flag is set (request parameter or
    process-wide configuration), the session ends in mock mode,
    `get_schwab_client` is never invoked, the feature (when enabled) is
    initialized with the simulated collaborator, and the initializer is
    never invoked with the real collaborator pair. -/
theorem mock_flag_short_circuits (mockParam envUseMock cfgMD : Bool)
    (s : Session) (reg : Registry) (orc : Oracle)
    (h : (mockParam || envUseMock) = true) :
    (authenticate mockParam envUseMock cfgMD s reg orc).sess.mockMode
        = some true ∧
    (authenticate mockParam envUseMock cfgMD s reg orc).log.getClientCalls
        = 0 ∧
    (cfgMD = true →
      (authenticate mockParam envUseMock cfgMD s reg orc).log.initArgs
        = some (some ClientObj.mock, true)) ∧
    ∀ c, (authenticate mockParam envUseMock cfgMD s reg orc).log.initArgs
        ≠ some (c, false) := by
  rcases orc with ⟨crs, inits⟩
  rcases inits with _ | ⟨b, bs⟩ <;> cases cfgMD <;>
    simp [authenticate, h, initializeFeatures, initializeMarketData, popInit]

/-- Witness for C3: request parameter `mock=true`, market data enabled. -/
theorem mock_flag_short_circuits_witness :
    (authenticate true false true emptySession ⟨true, none⟩
        ⟨[], []⟩).sess.mockMode = some true ∧
    (authenticate true false true emptySession ⟨true, none⟩
        ⟨[], []⟩).log.getClientCalls = 0 ∧
    (authenticate true false true emptySession ⟨true, none⟩
        ⟨[], []⟩).log.initArgs = some (some ClientObj.mock, true) :=
  ⟨(mock_flag_short_circuits true false true emptySession ⟨true, none⟩
      ⟨[], []⟩ rfl).1,
   (mock_flag_short_circuits true false true emptySession ⟨true, none⟩
      ⟨[], []⟩ rfl).2.1,
   (mock_flag_short_circuits true false true emptySession ⟨true, none⟩
      ⟨[], []⟩ rfl).2.2.1 rfl⟩

/-- C4: logout always clears the whole session, flashes exactly one
    info notice, and redirects to the login page; `stop_streaming` is
    invoked exactly once precisely when the feature is enabled and a
    handle exists (and never more than once); a stop failure (`stopRes`
    arbitrary, including a raised exception) changes none of this, and
    the absence of any handle raises no fault. -/
theorem logout_clears_session (s : Session) (reg : Registry)
    (stopRes : StopRes) :
    (logout s reg stopRes).sess = emptySession ∧
    (logout s reg stopRes).flashes = [Category.info] ∧
    (logout s reg stopRes).redirectTo = Page.login ∧
    ((logout s reg stopRes).stopCalls = 1 ↔
      reg.mdEnabled = true ∧ (reg.mdHandle).isSome = true) ∧
    (logout s reg stopRes).stopCalls ≤ 1 := by
  rcases reg with ⟨en, hd⟩
  cases en <;> rcases hd with _ | m <;>
    simp [logout, cleanupFeatures, emptySession]

/-- C5: every `/authenticate` request flashes exactly one notice, whose
    category matches the path taken — warning on the simulation path
    (mock mode), success when a real client is obtained (real mode),
    error on the no-client fallback and on the caught-fault path (both
    mock mode). -/
theorem one_notice_per_path (mockParam envUseMock cfgMD : Bool)
    (s : Session) (reg : Registry) (orc : Oracle) :
    (authenticate mockParam envUseMock cfgMD s reg orc).flashes.length = 1 ∧
    ((mockParam || envUseMock) = true →
      (authenticate mockParam envUseMock cfgMD s reg orc).flashes
          = [Category.warning] ∧
      (authenticate mockParam envUseMock cfgMD s reg orc).sess.mockMode
          = some true) ∧
    (∀ c rest, (mockParam || envUseMock) = false →
      orc.clientResults = ClientRes.ok c :: rest →
      (authenticate mockParam envUseMock cfgMD s reg orc).flashes
          = [Category.success] ∧
      (authenticate mockParam envUseMock cfgMD s reg orc).sess.mockMode
          = some false) ∧
    (∀ rest, (mockParam || envUseMock) = false →
      orc.clientResults = ClientRes.noClient :: rest →
      (authenticate mockParam envUseMock cfgMD s reg orc).flashes
          = [Category.error] ∧
      (authenticate mockParam envUseMock cfgMD s reg orc).sess.mockMode
          = some true) ∧
    (∀ rest, (mockParam || envUseMock) = false →
      orc.clientResults = ClientRes.fault :: rest →
      (authenticate mockParam envUseMock cfgMD s reg orc).flashes
          = [Category.error] ∧
      (authenticate mockParam envUseMock cfgMD s reg orc).sess.mockMode
          = some true) := by
  refine ⟨?_, ?_, ?_, ?_, ?_⟩
  · rcases orc with ⟨crs, inits⟩
    cases mockParam <;> cases envUseMock <;> cases cfgMD <;>
      rcases crs with _ | ⟨r, rs⟩ <;> (try cases r) <;>
        simp [authenticate, initializeFeatures, initializeMarketData,
              popClient, popInit, toClientObj]
  · intro h
    cases cfgMD <;>
      simp [authenticate, h, initializeFeatures, initializeMarketData,
            popInit]
  · intro c rest h heq
    cases cfgMD <;>
      simp [authenticate, h, heq, initializeFeatures, initializeMarketData,
            popClient, popInit, toClientObj]
  · intro rest h heq
    cases cfgMD <;>
      simp [authenticate, h, heq, initializeFeatures, initializeMarketData,
            popClient, popInit, toClientObj]
  · intro rest h heq
    cases cfgMD <;>
      simp [authenticate, h, heq, initializeFeatures, initializeMarketData,
            popClient, popInit, toClientObj]

/-- Witness for C5: the simulation path and the fallback path at
    concrete inputs. -/
theorem one_notice_per_path_witness :
    ((authenticate true false true emptySession ⟨true, none⟩
        ⟨[], []⟩).flashes = [Category.warning] ∧
      (authenticate true false true emptySession ⟨true, none⟩
        ⟨[], []⟩).sess.mockMode = some true) ∧
    ((authenticate false false true emptySession ⟨true, none⟩
        ⟨[ClientRes.noClient], []⟩).flashes = [Category.error] ∧
      (authenticate false false true emptySession ⟨true, none⟩
        ⟨[ClientRes.noClient], []⟩).sess.mockMode = some true) :=
  ⟨(one_notice_per_path true false true emptySession ⟨true, none⟩
      ⟨[], []⟩).2.1 rfl,
   (one_notice_per_path false false true emptySession ⟨true, none⟩
      ⟨[ClientRes.noClient], []⟩).2.2.2.1 [] rfl rfl⟩

/-- C6 counterexample: two `/authenticate` executions that agree on the
    request's simulation parameter (`mock=false`), the session, the
    registry, and the upstream oracle (a real client is obtainable),
    and differ only in the boolean the environment variable holds at
    request-handling time, produce different modes.  In app.py the
    `os.getenv('USE_MOCK_DATA', ...)` call sits inside the request
    handler (line 101), so the decision tracks the environment at
    request time — there is no value captured once at startup. -/
theorem override_read_once_cex :
    (authenticate false true true emptySession ⟨true, none⟩
        ⟨[ClientRes.ok 1], []⟩).sess.mockMode = some true ∧
    (authenticate false false true emptySession ⟨true, none⟩
        ⟨[ClientRes.ok 1], []⟩).sess.mockMode = some false := by
  exact ⟨rfl, rfl⟩

/-- C6 amended: the environment-level override is read during each
    `/authenticate` request; the mode decision is the disjunction of
    the request's simulation parameter and the environment value at
    request-handling time — when it holds the simulation path is taken,
    otherwise real authentication is attempted (at least one
    `get_schwab_client` call). -/
theorem override_read_per_request (mockParam envReq cfgMD : Bool)
    (s : Session) (reg : Registry) (orc : Oracle) :
    ((mockParam || envReq) = true →
      (authenticate mockParam envReq cfgMD s reg orc).flashes
          = [Category.warning] ∧
      (authenticate mockParam envReq cfgMD s reg orc).sess.mockMode
          = some true) ∧
    ((mockParam || envReq) = false →
      1 ≤ (authenticate mockParam envReq cfgMD s reg orc).log.getClientCalls)
    := by
  constructor
  · intro h
    cases cfgMD <;>
      simp [authenticate, h, initializeFeatures, initializeMarketData,
            popInit]
  · intro h
    rcases orc with ⟨crs, inits⟩
    cases cfgMD <;> rcases crs with _ | ⟨r, rs⟩ <;> (try cases r) <;>
      simp [authenticate, h, initializeFeatures, initializeMarketData,
            popClient, popInit, toClientObj]

/-- Witness for the amended C6 at concrete inputs: environment override
    set at request time forces the warning path; both flags unset
    triggers a real authentication attempt. -/
theorem override_read_per_request_witness :
    (authenticate false true true emptySession ⟨true, none⟩
        ⟨[], []⟩).flashes = [Category.warning] ∧
    1 ≤ (authenticate false false true emptySession ⟨true, none⟩
        ⟨[], []⟩).log.getClientCalls :=
  ⟨((override_read_per_request false true true emptySession ⟨true, none⟩
      ⟨[], []⟩).1 rfl).1,
   (override_read_per_request false false true emptySession ⟨true, none⟩
      ⟨[], []⟩).2 rfl⟩

/-- When the feature is enabled, no upstream call faults, and
    initialization succeeds, `_initialize_features` leaves a handle in
    the registry whose Streaming Guard is unset. -/
theorem initializeFeatures_fresh (reg : Registry) (crs : List ClientRes)
    (inits : List Bool) (useMock : Bool)
    (hcl : ∀ r ∈ crs, r ≠ ClientRes.fault)
    (hin : ∀ b ∈ inits, b = true) :
    Option.map Manager.streamingStarted
      (initializeFeatures true reg ⟨crs, inits⟩ useMock).1.mdHandle
      = some false := by
  rcases inits with _ | ⟨b, bs⟩
  · rcases crs with _ | ⟨r, rs⟩
    · cases useMock <;>
        simp [initializeFeatures, popClient, popInit, initializeMarketData,
              toClientObj]
    · have hr := hcl r (List.mem_cons_self r rs)
      cases useMock
      · rcases r with i | _ | _ <;>
          simp_all [initializeFeatures, popClient, popInit,
                    initializeMarketData, toClientObj]
      · simp [initializeFeatures, popClient, popInit, initializeMarketData]
  · have hbt := hin b (List.mem_cons_self b bs)
    subst hbt
    rcases crs with _ | ⟨r, rs⟩
    · cases useMock <;>
        simp [initializeFeatures, popClient, popInit, initializeMarketData,
              toClientObj]
    · have hr := hcl r (List.mem_cons_self r rs)
      cases useMock
      · rcases r with i | _ | _ <;>
          simp_all [initializeFeatures, popClient, popInit,
                    initializeMarketData, toClientObj]
      · simp [initializeFeatures, popClient, popInit, initializeMarketData]

/-- Under the same assumptions, every path of `/authenticate` ends with
    a freshly initialized handle whose Streaming Guard is unset. -/
theorem authenticate_fresh_handle (mockParam envReq : Bool) (s : Session)
    (reg : Registry) (crs : List ClientRes) (inits : List Bool)
    (hcl : ∀ r ∈ crs, r ≠ ClientRes.fault)
    (hin : ∀ b ∈ inits, b = true) :
    Option.map Manager.streamingStarted
      (authenticate mockParam envReq true s reg ⟨crs, inits⟩).reg.mdHandle
      = some false := by
  cases hmk : (mockParam || envReq)
  case true =>
    have h := initializeFeatures_fresh reg crs inits true hcl hin
    simpa [authenticate, hmk] using h
  case false =>
    rcases crs with _ | ⟨r, rs⟩
    · have h := initializeFeatures_fresh reg [] inits true (by simp) hin
      simpa [authenticate, hmk, popClient] using h
    · have hr := hcl r (List.mem_cons_self r rs)
      have hcl2 : ∀ x ∈ rs, x ≠ ClientRes.fault := by
        intro x hx
        exact hcl x (List.mem_cons_of_mem r hx)
      rcases r with i | _ | _
      · have h := initializeFeatures_fresh reg rs inits false hcl2 hin
        simpa [authenticate, hmk, popClient] using h
      · have h := initializeFeatures_fresh reg rs inits true hcl2 hin
        simpa [authenticate, hmk, popClient] using h
      · exact absurd rfl hr

/-- C7: after a logout followed by a subsequent `/authenticate` (market
    data enabled, no upstream fault, initialization succeeding), the
    registry holds a handle whose Streaming Guard is unset, so
    start-streaming may fire again for the new handle; and no connect
    or disconnect event ever resets a set guard — the logout /
    re-authentication path is the only one that yields a fresh guard. -/
theorem logout_then_auth_resets_guard (mockParam envReq : Bool)
    (s : Session) (reg : Registry) (stopRes : StopRes)
    (crs : List ClientRes) (inits : List Bool)
    (hcl : ∀ r ∈ crs, r ≠ ClientRes.fault)
    (hin : ∀ b ∈ inits, b = true) :
    (∃ m, (authenticate mockParam envReq true (logout s reg stopRes).sess
        (logout s reg stopRes).reg ⟨crs, inits⟩).reg.mdHandle = some m ∧
      m.streamingStarted = false) ∧
    (∀ s2 reg2 m r, reg2.mdHandle = some m → m.streamingStarted = true →
      (handleConnect s2 reg2 r).reg.mdHandle = some m) ∧
    (∀ reg2, handleDisconnect reg2 = reg2) := by
  refine ⟨?_, ?_, fun _ => rfl⟩
  · have h := authenticate_fresh_handle mockParam envReq
      (logout s reg stopRes).sess (logout s reg stopRes).reg crs inits
      hcl hin
    exact Option.map_eq_some'.mp h
  · intro s2 reg2 m r hm hg
    rw [handleConnect_of_guard s2 reg2 m hm hg r]
    exact hm

/-- Witness for C7: logout from a set-guard registry, then a mock-mode
    re-authentication; the new handle's guard is unset. -/
theorem logout_then_auth_resets_guard_witness :
    (∃ m, (authenticate true false true
        (logout sessAuth regSet StopRes.ok).sess
        (logout sessAuth regSet StopRes.ok).reg ⟨[], []⟩).reg.mdHandle
        = some m ∧ m.streamingStarted = false) ∧
    (handleConnect sessAuth regSet (StreamRes.ok true)).reg.mdHandle
        = some mgrSet :=
  ⟨(logout_then_auth_resets_guard true false sessAuth regSet StopRes.ok
      [] [] (by simp) (by simp)).1,
   (logout_then_auth_resets_guard true false sessAuth regSet StopRes.ok
      [] [] (by simp) (by simp)).2.1 sessAuth regSet mgrSet
      (StreamRes.ok true) rfl rfl⟩

/-- C9: on the real-authentication path, `get_schwab_client` is invoked
    twice — once in `authenticate` to decide the branch and a second,
    independent time inside `_initialize_features` — and the client
    handed to `initialize_market_data` is the second call's result (so
    it may differ from the checked one, or be absent), while the
    session still records `mock_mode = False`. -/
theorem real_path_fetches_client_twice (c1 : Nat) (r2 : ClientRes)
    (s : Session) (reg : Registry) (rest : List ClientRes)
    (inits : List Bool) (h2 : r2 ≠ ClientRes.fault) :
    (authenticate false false true s reg
        ⟨ClientRes.ok c1 :: r2 :: rest, inits⟩).log.getClientCalls = 2 ∧
    (authenticate false false true s reg
        ⟨ClientRes.ok c1 :: r2 :: rest, inits⟩).sess.mockMode
        = some false ∧
    (authenticate false false true s reg
        ⟨ClientRes.ok c1 :: r2 :: rest, inits⟩).log.initArgs
        = some (toClientObj r2, false) := by
  rcases inits with _ | ⟨b, bs⟩ <;> rcases r2 with i | _ | _ <;>
    simp_all [authenticate, initializeFeatures, initializeMarketData,
              popClient, popInit, toClientObj]

/-- Witness for C9: the branch is decided on client `1`, but the second
    fetch returns no client at all, so the initializer receives `None`
    while the session says real mode. -/
theorem real_path_fetches_client_twice_witness :
    (authenticate false false true emptySession ⟨true, none⟩
        ⟨[ClientRes.ok 1, ClientRes.noClient], []⟩).log.getClientCalls
        = 2 ∧
    (authenticate false false true emptySession ⟨true, none⟩
        ⟨[ClientRes.ok 1, ClientRes.noClient], []⟩).sess.mockMode
        = some false ∧
    (authenticate false false true emptySession ⟨true, none⟩
        ⟨[ClientRes.ok 1, ClientRes.noClient], []⟩).log.initArgs
        = some (none, false) :=
  real_path_fetches_client_twice 1 ClientRes.noClient emptySession
    ⟨true, none⟩ [] [] (by decide)

/-- C10: the caught-fault path of `/authenticate` leaves
    `session.permanent` exactly as it was, while still setting
    `authenticated = True` and `mock_mode = True`; each of the other
    three paths sets `permanent = True`. -/
theorem fault_path_preserves_permanent (mockParam envReq cfgMD : Bool)
    (s : Session) (reg : Registry) (orc : Oracle) :
    (∀ rest, (mockParam || envReq) = false →
      orc.clientResults = ClientRes.fault :: rest →
      (authenticate mockParam envReq cfgMD s reg orc).sess.permanent
          = s.permanent ∧
      (authenticate mockParam envReq cfgMD s reg orc).sess.authenticated
          = some true ∧
      (authenticate mockParam envReq cfgMD s reg orc).sess.mockMode
          = some true) ∧
    ((mockParam || envReq) = true →
      (authenticate mockParam envReq cfgMD s reg orc).sess.permanent
          = true) ∧
    (∀ c rest, (mockParam || envReq) = false →
      orc.clientResults = ClientRes.ok c :: rest →
      (authenticate mockParam envReq cfgMD s reg orc).sess.permanent
          = true) ∧
    (∀ rest, (mockParam || envReq) = false →
      orc.clientResults = ClientRes.noClient :: rest →
      (authenticate mockParam envReq cfgMD s reg orc).sess.permanent
          = true) := by
  refine ⟨?_, ?_, ?_, ?_⟩
  · intro rest h heq
    cases cfgMD <;>
      simp [authenticate, h, heq, initializeFeatures, initializeMarketData,
            popClient, popInit, toClientObj]
  · intro h
    cases cfgMD <;>
      simp [authenticate, h, initializeFeatures, initializeMarketData,
            popInit]
  · intro c rest h heq
    cases cfgMD <;>
      simp [authenticate, h, heq, initializeFeatures, initializeMarketData,
            popClient, popInit, toClientObj]
  · intro rest h heq
    cases cfgMD <;>
      simp [authenticate, h, heq, initializeFeatures, initializeMarketData,
            popClient, popInit, toClientObj]

/-- Witness for C10: starting from a non-permanent session, the fault
    path keeps `permanent = false`, whereas the simulation path sets it. -/
theorem fault_path_preserves_permanent_witness :
    ((authenticate false false true emptySession ⟨true, none⟩
        ⟨[ClientRes.fault], []⟩).sess.permanent = emptySession.permanent ∧
      (authenticate false false true emptySession ⟨true, none⟩
        ⟨[ClientRes.fault], []⟩).sess.authenticated = some true ∧
      (authenticate false false true emptySession ⟨true, none⟩
        ⟨[ClientRes.fault], []⟩).sess.mockMode = some true) ∧
    (authenticate true false true emptySession ⟨true, none⟩
        ⟨[], []⟩).sess.permanent = true :=
  ⟨(fault_path_preserves_permanent false false true emptySession
      ⟨true, none⟩ ⟨[ClientRes.fault], []⟩).1 [] rfl rfl,
   (fault_path_preserves_permanent true false true emptySession
      ⟨true, none⟩ ⟨[], []⟩).2.1 rfl⟩

end App
